import Mathlib

/-!
Shallow embedding of `src/mindflow/resolve/resolver_index.py` (class
`ResolverIndex`): the incremental indexing/caching engine of the mindflow
repository.  Python's mutable state (the persisted `.mf/index.json`
document, the count of external model calls, the printed log lines) is
threaded explicitly through a `St` record; exceptions are `Except PyError`
results; the external collaborators that are not under `src/` (the model
transport `get_response`, the content hasher `hashlib.sha256`, the file
system) are parameters collected in an `Env` record.
-/

set_option autoImplicit false
set_option maxRecDepth 40000

namespace Mindflow

/-- Python exceptions that can surface from the code paths modelled here.
`indexGenerationFailure` is the `IndexGenerationFailure` class imported from
`mindflow.utils.exceptions.index_failure` (whose definition is outside
`src/`; modelled from the spec as carrying a descriptive message).
`keyError` is Python's built-in `KeyError`, `typeError` the built-in
`TypeError` raised on a call-arity mismatch, `fileReadError` stands for the
`OSError` family raised by `open` on a missing/unreadable file. -/
inductive PyError where
  | keyError (key : String)
  | typeError (msg : String)
  | fileReadError (path : String)
  | indexGenerationFailure (message : String)
deriving DecidableEq

deriving instance DecidableEq for Except

/-- One persisted cache record: the value stored at a path in
`index.json`, written by `update_file_index` as
`{'index': index_description, "hash": file_hash}`. -/
structure IndexEntry where
  index : String
  hash : String
deriving DecidableEq

/-- The persisted `index.json` document: a JSON object mapping file paths
to entries, modelled as an association list with at most one binding per
key (Python `dict` semantics via `lookupDoc`/`insertEntry`). -/
abbrev Doc := List (String × IndexEntry)

/-- Python `dict` read `d[k]` / `d.get(k)`: first binding for the key. -/
def lookupDoc : Doc → String → Option IndexEntry
  | [], _ => none
  | (k, v) :: rest, key => if k == key then some v else lookupDoc rest key

/-- Python `dict` assignment `d[k] = v`: replace the existing binding in
place, or append a new one. -/
def insertEntry : Doc → String → IndexEntry → Doc
  | [], key, v => [(key, v)]
  | (k, w) :: rest, key, v =>
      if k == key then (key, v) :: rest else (k, w) :: insertEntry rest key v

/-- The mutable world state threaded through one `ResolverIndex` operation:
the persisted document (`_get_index_json`/`_write_index_json` read and
write it), the running count of `get_response` invocations (so that
retry-bound claims are observable), and the lines printed by `log`. -/
structure St where
  doc : Doc
  genCalls : Nat
  logged : List String
deriving DecidableEq

/-- The external collaborators of `ResolverIndex`, fixed for the duration
of an operation.
* `fs` — the file system: the readable content of each path (`none` when
  `open` raises).  The source reads a file both as bytes (for hashing) and
  as text (for the prompt); both reads are modelled by the same content.
* `hashFn` — `hashlib.sha256(file_bytes).hexdigest()`, an arbitrary
  deterministic digest function.
* `oracle` — Modelled from the spec: `get_response(model, prompt)` from
  `mindflow.utils.response` is not under `src/`; per the spec it returns a
  string or fails, and the failure retried by the source's loop is the
  `IndexGenerationFailure` class that loop catches.  `oracle n prompt` is
  the outcome of the `n`-th external call of the run (counted globally).
* `verbose` — the constructor flag consulted by `log`. -/
structure Env where
  fs : String → Option String
  hashFn : String → String
  oracle : Nat → String → Except PyError String
  verbose : Bool

/-- `MAX_INDEX_RETRIES` from the source. -/
def MAX_INDEX_RETRIES : Nat := 3

/-- `ResolverIndex.log(self, message)`: prints `message` when `verbose` is
set.  Python binds positional arguments before running the body, so a call
with any number of arguments other than one raises `TypeError` regardless
of `verbose`; the method is therefore modelled on an argument list.
Returns the lines actually printed. -/
def log (verbose : Bool) (args : List String) : Except PyError (List String) :=
  match args with
  | [message] => Except.ok (if verbose then [message] else [])
  | _ =>
      Except.error (PyError.typeError
        ("log() takes 2 positional arguments but " ++
          toString (args.length + 1) ++ " were given"))

/-- The retry loop body of `_attempt_index_generation`:
`for _ in range(MAX_INDEX_RETRIES): try: return get_response(...)
except IndexGenerationFailure: pass`, followed by the terminal raise.
`fuel` counts the remaining loop iterations, `calls` the external calls
made so far (it indexes the oracle). Returns the result together with the
updated call count. -/
def attemptLoop (env : Env) (prompt : String) :
    Nat → Nat → Except PyError String × Nat
  | 0, calls =>
      (Except.error (PyError.indexGenerationFailure
        ("Failed to generate an index after " ++
          toString MAX_INDEX_RETRIES ++ " tries.")), calls)
  | fuel + 1, calls =>
      match env.oracle calls prompt with
      | Except.ok response => (Except.ok response, calls + 1)
      | Except.error (PyError.indexGenerationFailure _) =>
          attemptLoop env prompt fuel (calls + 1)
      | Except.error e => (Except.error e, calls + 1)

/-- `ResolverIndex._attempt_index_generation(self, prompt)`. -/
def attempt_index_generation (env : Env) (prompt : String) (calls : Nat) :
    Except PyError String × Nat :=
  attemptLoop env prompt MAX_INDEX_RETRIES calls

/-- The fixed instruction text of the prompt f-string in
`get_file_index_description`. -/
def indexPromptPreamble : String :=
  "Pretend you are a search engine trying to provide an information rich yet condensed string that can serve as an index for the contents of a file. I want you to respond in as few words as possible while still conveying the contents of this file."

/-- ASCII whitespace, for Python's `str.strip()`. -/
def isSpaceChar (c : Char) : Bool :=
  c == ' ' || c == '\t' || c == '\n' || c == '\r'

/-- Drop leading whitespace characters. -/
def dropLeadingSpace : List Char → List Char
  | [] => []
  | c :: cs => if isSpaceChar c then dropLeadingSpace cs else c :: cs

/-- Python `s.strip()`: remove leading and trailing whitespace. -/
def pyStrip (s : String) : String :=
  String.mk (List.reverse (dropLeadingSpace
    (List.reverse (dropLeadingSpace s.data))))

/-- Python `s.replace("\n", " ")`: each newline becomes one space. -/
def pyReplaceNewlines (s : String) : String :=
  String.mk (s.data.map (fun c => if c == '\n' then ' ' else c))

/-- The prompt built by `get_file_index_description` from the file's text:
contents are stripped, internal newlines collapsed to spaces, and embedded
after the instruction and a blank line. -/
def mkPrompt (contents : String) : String :=
  indexPromptPreamble ++ "\n\n" ++ pyReplaceNewlines (pyStrip contents)

/-- `ResolverIndex.get_file_index_description(self, file)`: read the file
as text (an unreadable file raises), build the prompt, and run the
retry-bounded generation. -/
def get_file_index_description (env : Env) (file : String) (calls : Nat) :
    Except PyError String × Nat :=
  match env.fs file with
  | none => (Except.error (PyError.fileReadError file), calls)
  | some contents => attempt_index_generation env (mkPrompt contents) calls

/-- `ResolverIndex.get_file_hash(self, path)`: digest of the file's bytes;
an unreadable file raises. -/
def get_file_hash (env : Env) (path : String) : Except PyError String :=
  match env.fs path with
  | none => Except.error (PyError.fileReadError path)
  | some file_bytes => Except.ok (env.hashFn file_bytes)

/-- The regeneration tail of `update_file_index` (its last four
statements): generate a description, store
`{'index': index_description, "hash": file_hash}` into the loaded
document, call `self.log("Index generated for file: ", file_path)` — two
positional arguments — and only then persist via `_write_index_json`. -/
def reindexFile (env : Env) (st : St) (index_json : Doc)
    (file_path file_hash : String) : Except PyError Unit × St :=
  match get_file_index_description env file_path st.genCalls with
  | (Except.error e, calls) => (Except.error e, { st with genCalls := calls })
  | (Except.ok index_description, calls) =>
      let index_json :=
        insertEntry index_json file_path
          { index := index_description, hash := file_hash }
      match log env.verbose ["Index generated for file: ", file_path] with
      | Except.error e => (Except.error e, { st with genCalls := calls })
      | Except.ok lines =>
          (Except.ok (),
            { doc := index_json, genCalls := calls,
              logged := st.logged ++ lines })

/-- `ResolverIndex.update_file_index(self, file_path, force_reindex)`:
load the document, hash the file, and unless `force_reindex` is set,
look the path up (`index_json[file_path]` — a missing key raises
`KeyError`) and return on a digest match; otherwise regenerate. -/
def update_file_index (env : Env) (st : St) (file_path : String)
    (force_reindex : Bool) : Except PyError Unit × St :=
  let index_json := st.doc
  match get_file_hash env file_path with
  | Except.error e => (Except.error e, st)
  | Except.ok file_hash =>
      if force_reindex then
        reindexFile env st index_json file_path file_hash
      else
        match lookupDoc index_json file_path with
        | none => (Except.error (PyError.keyError file_path), st)
        | some data =>
            let should_reindex := data.hash != file_hash
            if should_reindex then
              reindexFile env st index_json file_path file_hash
            else
              (Except.ok (), st)

/-- `ResolverIndex.get_sub_index(self, files)`: a read-only projection of
the loaded document onto the requested paths; a missing path is paired
with `none` (the source's deliberate `None` marker) and the function never
raises. Values of present paths are the full stored entries,
`index_json.get(file, None)`. -/
def get_sub_index (st : St) (files : List String) :
    List (String × Option IndexEntry) :=
  files.map (fun file => (file, lookupDoc st.doc file))

/-- `ResolverIndex.generate_all_indexes(self, files, force_reindex,
ignore_index_failures)`: sequentially update each file; an
`IndexGenerationFailure` is logged and skipped when failures are ignored,
re-raised otherwise; any other exception propagates. -/
def generate_all_indexes (env : Env) (st : St) (files : List String)
    (force_reindex ignore_index_failures : Bool) : Except PyError Unit × St :=
  match files with
  | [] => (Except.ok (), st)
  | filepath :: rest =>
      match update_file_index env st filepath force_reindex with
      | (Except.ok _, st') =>
          generate_all_indexes env st' rest force_reindex ignore_index_failures
      | (Except.error (PyError.indexGenerationFailure msg), st') =>
          if ignore_index_failures then
            match log env.verbose [msg] with
            | Except.ok lines =>
                generate_all_indexes env
                  { st' with logged := st'.logged ++ lines } rest
                  force_reindex ignore_index_failures
            | Except.error e => (Except.error e, st')
          else
            (Except.error (PyError.indexGenerationFailure msg), st')
      | (Except.error e, st') => (Except.error e, st')

/-- The spec's tri-state sub-index value: `Present(summary) | Absent`
(§3 SubIndex). -/
inductive SubVal where
  | present (summary : String)
  | absent
deriving DecidableEq

/-- Follows the spec's words, for comparison with `get_sub_index` from the
source (§4.4: for each requested path, if present in the document, project
its summary; otherwise mark absent). -/
def get_sub_index_as_specified (doc : Doc) (files : List String) :
    List (String × SubVal) :=
  files.map (fun file =>
    (file,
      match lookupDoc doc file with
      | some entry => SubVal.present entry.index
      | none => SubVal.absent))

/-- Is this exception of the class the retry loop catches
(`IndexGenerationFailure`)? -/
def isGenerationFailure : PyError → Bool
  | PyError.indexGenerationFailure _ => true
  | _ => false

/-- Does the `i`-th external call fail with the class the retry loop
catches (the spec's transient `GenerationFailure`)? -/
def oracleFailsTransiently (env : Env) (prompt : String) (i : Nat) : Bool :=
  match env.oracle i prompt with
  | Except.error (PyError.indexGenerationFailure _) => true
  | _ => false

/-- The observable outcome of a state-changing operation for the
noninterference claim: the returned value, the persisted document and the
number of external generation calls — everything except the printed log. -/
def opView (r : Except PyError Unit × St) : Except PyError Unit × Doc × Nat :=
  (r.1, (r.2).doc, (r.2).genCalls)

/-- The same collaborators with the `verbose` constructor flag replaced. -/
def setVerbose (env : Env) (b : Bool) : Env :=
  { env with verbose := b }

/-! ### Concrete fixtures used to evaluate the model on closed inputs -/

/-- An empty initial state: no `index.json` yet, no calls, no output. -/
def st0 : St := { doc := [], genCalls := 0, logged := [] }

/-- A world with a single readable file `a.txt` and an external model that
always answers. -/
def envA : Env :=
  { fs := fun p => if p == "a.txt" then some "content" else none
    hashFn := fun b => "sha256:" ++ b
    oracle := fun _ _ => Except.ok "a summary"
    verbose := true }

/-- A state whose only entry for `a.txt` is stale: its stored digest
differs from the digest of the file's current bytes under `envA`. -/
def stStale : St :=
  { doc := [("a.txt", { index := "old", hash := "STALE" })]
    genCalls := 0
    logged := [] }

/-- A state whose entry for `a.txt` matches the current digest of the
file's bytes under `envA`: the cache-hit situation. -/
def stHit : St :=
  { doc := [("a.txt", { index := "a summary", hash := "sha256:content" })]
    genCalls := 0
    logged := [] }

/-- A world with three readable files `A`, `B`, `C` in which the external
model fails (with the class the retry loop catches) exactly on the prompt
built from `B`'s contents, and succeeds on every other prompt. -/
def envBatch : Env :=
  { fs := fun p =>
      if p == "A" then some "ca"
      else if p == "B" then some "cb"
      else if p == "C" then some "cc"
      else none
    hashFn := fun b => "sha256:" ++ b
    oracle := fun _ prompt =>
      if prompt == mkPrompt "cb" then
        Except.error (PyError.indexGenerationFailure "failed B")
      else Except.ok "a summary"
    verbose := true }

/-- Two documents giving `A` the same summary but different stored
digests. -/
def doc1 : Doc := [("A", { index := "s", hash := "h1" })]

/-- See `doc1`: same summary for `A`, different digest. -/
def doc2 : Doc := [("A", { index := "s", hash := "h2" })]

/-- A state holding `doc1`. -/
def stD1 : St := { doc := doc1, genCalls := 0, logged := [] }

/-- A state holding `doc2`. -/
def stD2 : St := { doc := doc2, genCalls := 0, logged := [] }

/-- An external model that fails transiently on the first call and with a
non-retryable error on every later call. -/
def envRetryMix : Env :=
  { fs := fun _ => none
    hashFn := fun b => b
    oracle := fun n _ =>
      if n == 0 then
        Except.error (PyError.indexGenerationFailure "transient")
      else Except.error (PyError.typeError "boom")
    verbose := false }

/-- An external model that fails transiently twice and then answers. -/
def envFailTwice : Env :=
  { fs := fun _ => none
    hashFn := fun b => b
    oracle := fun n _ =>
      if n < 2 then
        Except.error (PyError.indexGenerationFailure "transient")
      else Except.ok "recovered"
    verbose := false }

/-- A world with one readable file whose generation always fails
transiently. -/
def envGenFail : Env :=
  { fs := fun p => if p == "a.txt" then some "content" else none
    hashFn := fun b => "sha256:" ++ b
    oracle := fun _ _ =>
      Except.error (PyError.indexGenerationFailure "transient")
    verbose := true }

/-! ### Claims -/

/-- Claim C1: the spec says a path with no existing index entry and
`forceReindex = false` must fall into the reindex branch (generation is
triggered).  The source instead evaluates `index_json[file_path]` before
any digest comparison, so the absent key raises `KeyError`: on an empty
store, `update_file_index` raises `KeyError` without a single generation
call and without touching the store. -/
theorem c1_missing_entry_raises_keyError :
    update_file_index envA st0 "a.txt" false =
      (Except.error (PyError.keyError "a.txt"), st0) := by
  decide

/-- Claim C2: the spec says a successful regeneration writes the new entry
and persists the document immediately.  In the source, after the in-memory
update the call `self.log("Index generated for file: ", file_path)` passes
two positional arguments to the one-parameter method `log`, raising
`TypeError` before `_write_index_json` runs: starting from a stale entry,
generation succeeds (one call) yet the call raises `TypeError` and the
persisted document still holds the old stale entry. -/
theorem c2_log_typeError_blocks_persist :
    (update_file_index envA stStale "a.txt" false).1 =
        Except.error (PyError.typeError
          "log() takes 2 positional arguments but 3 were given") ∧
      ((update_file_index envA stStale "a.txt" false).2).doc = stStale.doc ∧
      ((update_file_index envA stStale "a.txt" false).2).genCalls = 1 := by
  decide

/-- Claim C6: with an entry whose stored digest matches the file's current
digest, `update_file_index` is a pure cache hit — it returns leaving the
state (document, call count, output) untouched.  But the idempotence
scenario of the claim fails on the source: starting unindexed, the first
call raises `KeyError` (claim C1's bug) with zero generation calls, so the
second call on the unchanged file is never a cache hit. -/
theorem c6_cache_hit_and_broken_idempotence :
    update_file_index envA stHit "a.txt" false = (Except.ok (), stHit) ∧
      (update_file_index envA st0 "a.txt" false).1 =
        Except.error (PyError.keyError "a.txt") ∧
      ((update_file_index envA st0 "a.txt" false).2).genCalls = 0 := by
  decide

/-- Claim C8: the spec's partial-failure scenario — files `[A, B, C]`
where only `B` always fails, `ignoreFailures = true` — should persist
entries for `A` and `C` and propagate nothing.  On the source, with the
default `force_reindex = false`, processing `A` raises `KeyError` (not an
`IndexGenerationFailure`, hence not caught) and aborts the batch with the
store untouched; with `force_reindex = true`, processing `A` generates
successfully but then raises `TypeError` in `log` (claim C2's bug), again
aborting the batch with nothing persisted. -/
theorem c8_batch_aborts_before_B :
    generate_all_indexes envBatch st0 ["A", "B", "C"] false true =
        (Except.error (PyError.keyError "A"), st0) ∧
      (generate_all_indexes envBatch st0 ["A", "B", "C"] true true).1 =
        Except.error (PyError.typeError
          "log() takes 2 positional arguments but 3 were given") ∧
      ((generate_all_indexes envBatch st0 ["A", "B", "C"] true true).2).doc =
        [] := by
  decide

/-- Claim C3 (counterexample): if present paths mapped to their summary,
two documents assigning `A` the same summary would yield the same
sub-index for `["A"]` — the spec-following projection does.  The source's
`get_sub_index` distinguishes them, because it pairs a present path with
the full stored entry (summary and digest), not with the summary. -/
theorem c3_counterexample_entry_not_summary :
    get_sub_index_as_specified doc1 ["A"] =
        get_sub_index_as_specified doc2 ["A"] ∧
      get_sub_index stD1 ["A"] ≠ get_sub_index stD2 ["A"] := by
  decide

/-- Claim C3 (amended): `get_sub_index` pairs every requested path with
the document lookup — a present path with its full stored entry (summary
plus digest), an absent path with the explicit `none` marker — and the
returned keys are exactly the requested paths in order; the operation is a
total function, so it never raises for missing files and never omits a
requested path. -/
theorem c3_sub_index_complete (st : St) (files : List String) (f : String)
    (h : f ∈ files) :
    (f, lookupDoc st.doc f) ∈ get_sub_index st files ∧
      (get_sub_index st files).map Prod.fst = files := by
  refine ⟨List.mem_map_of_mem _ h, ?_⟩
  clear h
  induction files with
  | nil => rfl
  | cons a l ih => simp_all [get_sub_index]

/-- Witness for `c3_sub_index_complete`: requesting `["A", "Z"]` when only
`A` is indexed pairs `Z` with the absent marker and omits nothing. -/
theorem c3_sub_index_complete_witness :
    ("Z", (none : Option IndexEntry)) ∈ get_sub_index stD1 ["A", "Z"] ∧
      (get_sub_index stD1 ["A", "Z"]).map Prod.fst = ["A", "Z"] :=
  c3_sub_index_complete stD1 ["A", "Z"] "Z" (by decide)

/-- A transiently failed attempt consumes one call and re-enters the
loop with one unit of fuel spent. -/
theorem attemptLoop_transient (env : Env) (prompt : String)
    (fuel calls : Nat) (m : String)
    (h : env.oracle calls prompt =
      Except.error (PyError.indexGenerationFailure m)) :
    attemptLoop env prompt (fuel + 1) calls =
      attemptLoop env prompt fuel (calls + 1) := by
  simp [attemptLoop, h]

/-- A successful attempt short-circuits the loop. -/
theorem attemptLoop_ok (env : Env) (prompt : String) (fuel calls : Nat)
    (s : String) (h : env.oracle calls prompt = Except.ok s) :
    attemptLoop env prompt (fuel + 1) calls = (Except.ok s, calls + 1) := by
  simp [attemptLoop, h]

/-- An attempt failing with any class other than the caught one leaves
the loop immediately with that error. -/
theorem attemptLoop_other (env : Env) (prompt : String) (fuel calls : Nat)
    (e : PyError) (h : env.oracle calls prompt = Except.error e)
    (hne : isGenerationFailure e = false) :
    attemptLoop env prompt (fuel + 1) calls = (Except.error e, calls + 1) := by
  cases e <;> simp_all [attemptLoop, isGenerationFailure]

/-- Claim C4: inside the retry loop of `_attempt_index_generation`, an
attempt that raises the caught failure class (the spec's transient
`GenerationFailure` from the external call) is swallowed and the loop
retries, while an attempt raising any other class of failure is not
retried: the error leaves the loop immediately after that single call. -/
theorem c4_loop_retries_only_transient_failures (env : Env) (prompt : String)
    (fuel calls : Nat) :
    (∀ m, env.oracle calls prompt =
          Except.error (PyError.indexGenerationFailure m) →
        attemptLoop env prompt (fuel + 1) calls =
          attemptLoop env prompt fuel (calls + 1)) ∧
      (∀ e, env.oracle calls prompt = Except.error e →
          isGenerationFailure e = false →
        attemptLoop env prompt (fuel + 1) calls =
          (Except.error e, calls + 1)) :=
  ⟨fun m h => attemptLoop_transient env prompt fuel calls m h,
   fun e h hne => attemptLoop_other env prompt fuel calls e h hne⟩

/-- Witness for `c4_loop_retries_only_transient_failures`: with an oracle
that fails transiently on call 0 and with `TypeError` on call 1, the loop
retries after call 0 and stops with the `TypeError` after call 1. -/
theorem c4_witness :
    attemptLoop envRetryMix "p" 3 0 = attemptLoop envRetryMix "p" 2 1 ∧
      attemptLoop envRetryMix "p" 2 1 =
        (Except.error (PyError.typeError "boom"), 2) :=
  ⟨(c4_loop_retries_only_transient_failures envRetryMix "p" 2 0).1
      "transient" (by decide),
   (c4_loop_retries_only_transient_failures envRetryMix "p" 1 1).2
      (PyError.typeError "boom") (by decide) (by decide)⟩

/-- A transiently failing call has the shape the retry loop catches. -/
theorem oracle_transient_shape (env : Env) (prompt : String) (i : Nat)
    (h : oracleFailsTransiently env prompt i = true) :
    ∃ m, env.oracle i prompt =
      Except.error (PyError.indexGenerationFailure m) := by
  rcases heq : env.oracle i prompt with e | s
  · cases e with
    | keyError k => simp [oracleFailsTransiently, heq] at h
    | typeError m => simp [oracleFailsTransiently, heq] at h
    | fileReadError p => simp [oracleFailsTransiently, heq] at h
    | indexGenerationFailure m => exact ⟨m, rfl⟩
  · simp [oracleFailsTransiently, heq] at h

/-- Claim C5: generation is retried up to the fixed bound of 3 attempts.
If the external call fails transiently for the first `k < 3` calls and
succeeds on call `k`, the loop returns that result after exactly `k + 1`
calls (no further attempts); if every attempt fails transiently, the loop
raises `IndexGenerationFailure` naming the bound after exactly 3 calls. -/
theorem c5_retry_bound_three (env : Env) (prompt : String) :
    (∀ k s, k < MAX_INDEX_RETRIES →
        (∀ i, i < k → oracleFailsTransiently env prompt i = true) →
        env.oracle k prompt = Except.ok s →
        attempt_index_generation env prompt 0 = (Except.ok s, k + 1)) ∧
      ((∀ i, i < MAX_INDEX_RETRIES →
          oracleFailsTransiently env prompt i = true) →
        attempt_index_generation env prompt 0 =
          (Except.error (PyError.indexGenerationFailure
            "Failed to generate an index after 3 tries."),
            MAX_INDEX_RETRIES)) := by
  constructor
  · intro k s hk hfail hok
    have hk3 : k < 3 := hk
    clear hk
    interval_cases k
    · show attemptLoop env prompt (2 + 1) 0 = _
      rw [attemptLoop_ok env prompt 2 0 s hok]
    · obtain ⟨m0, h0⟩ := oracle_transient_shape env prompt 0 (hfail 0 (by omega))
      show attemptLoop env prompt (2 + 1) 0 = _
      rw [attemptLoop_transient env prompt 2 0 m0 h0]
      show attemptLoop env prompt (1 + 1) 1 = _
      rw [attemptLoop_ok env prompt 1 1 s hok]
    · obtain ⟨m0, h0⟩ := oracle_transient_shape env prompt 0 (hfail 0 (by omega))
      obtain ⟨m1, h1⟩ := oracle_transient_shape env prompt 1 (hfail 1 (by omega))
      show attemptLoop env prompt (2 + 1) 0 = _
      rw [attemptLoop_transient env prompt 2 0 m0 h0]
      show attemptLoop env prompt (1 + 1) 1 = _
      rw [attemptLoop_transient env prompt 1 1 m1 h1]
      show attemptLoop env prompt (0 + 1) 2 = _
      rw [attemptLoop_ok env prompt 0 2 s hok]
  · intro hfail
    obtain ⟨m0, h0⟩ := oracle_transient_shape env prompt 0 (hfail 0 (by decide))
    obtain ⟨m1, h1⟩ := oracle_transient_shape env prompt 1 (hfail 1 (by decide))
    obtain ⟨m2, h2⟩ := oracle_transient_shape env prompt 2 (hfail 2 (by decide))
    show attemptLoop env prompt (2 + 1) 0 = _
    rw [attemptLoop_transient env prompt 2 0 m0 h0]
    show attemptLoop env prompt (1 + 1) 1 = _
    rw [attemptLoop_transient env prompt 1 1 m1 h1]
    show attemptLoop env prompt (0 + 1) 2 = _
    rw [attemptLoop_transient env prompt 0 2 m2 h2]
    rfl

/-- Witness for `c5_retry_bound_three`: an oracle that fails twice then
answers yields the answer after 3 calls; an always-failing oracle yields
the terminal `IndexGenerationFailure` after exactly 3 calls. -/
theorem c5_witness :
    attempt_index_generation envFailTwice "p" 0 = (Except.ok "recovered", 3) ∧
      attempt_index_generation envGenFail "p" 0 =
        (Except.error (PyError.indexGenerationFailure
          "Failed to generate an index after 3 tries."), MAX_INDEX_RETRIES) :=
  ⟨(c5_retry_bound_three envFailTwice "p").1 2 "recovered" (by decide)
      (by decide) (by decide),
   (c5_retry_bound_three envGenFail "p").2 (by decide)⟩

/-- The regeneration tail never changes the persisted document in the
returned state: a failed generation returns before the write, and a
successful one hits the two-argument `log` call's `TypeError` before
`_write_index_json`. -/
theorem reindexFile_doc_unchanged (env : Env) (st : St) (index_json : Doc)
    (fp fh : String) :
    ((reindexFile env st index_json fp fh).2).doc = st.doc := by
  unfold reindexFile
  cases hg : get_file_index_description env fp st.genCalls with
  | mk r calls => cases r <;> rfl

/-- Claim C7: whenever `update_file_index` raises — `FileReadError`,
`KeyError` on a missing entry, the terminal `IndexGenerationFailure`
after exhausted retries, or the `TypeError` from `log` — the persisted
document in the resulting state is exactly the prior one: a previously
unindexed path still has no entry and a previously indexed path keeps its
old entry unchanged. -/
theorem c7_failure_preserves_document (env : Env) (st : St)
    (file_path : String) (force_reindex : Bool) (e : PyError)
    (h : (update_file_index env st file_path force_reindex).1 =
      Except.error e) :
    ((update_file_index env st file_path force_reindex).2).doc = st.doc := by
  simp only [update_file_index]
  cases hh : get_file_hash env file_path with
  | error e2 => rfl
  | ok fh =>
    cases force_reindex with
    | true => exact reindexFile_doc_unchanged env st st.doc file_path fh
    | false =>
      cases hl : lookupDoc st.doc file_path with
      | none => rfl
      | some data =>
        cases hs : data.hash != fh with
        | true =>
            simp only [hs, if_true]
            exact reindexFile_doc_unchanged env st st.doc file_path fh
        | false => simp [hs]

/-- Witness for `c7_failure_preserves_document`: a stale entry plus an
always-failing generator — the update raises the terminal failure and the
stale entry is still the persisted one. -/
theorem c7_witness :
    ((update_file_index envGenFail stStale "a.txt" false).2).doc =
      stStale.doc :=
  c7_failure_preserves_document envGenFail stStale "a.txt" false
    (PyError.indexGenerationFailure
      "Failed to generate an index after 3 tries.") (by decide)

/-- Entering the retry loop costs at least one external call, whatever
the outcomes. -/
theorem attemptLoop_calls_lt (env : Env) (prompt : String) :
    ∀ fuel calls : Nat, calls < (attemptLoop env prompt (fuel + 1) calls).2 := by
  intro fuel
  induction fuel with
  | zero =>
    intro calls
    cases h : env.oracle calls prompt with
    | error e => cases e <;> simp [attemptLoop, h]
    | ok s => simp [attemptLoop, h]
  | succ n ih =>
    intro calls
    cases h : env.oracle calls prompt with
    | error e =>
      cases e with
      | indexGenerationFailure m =>
        rw [attemptLoop_transient env prompt (n + 1) calls m h]
        have := ih (calls + 1)
        omega
      | keyError k => simp [attemptLoop, h]
      | typeError m => simp [attemptLoop, h]
      | fileReadError p => simp [attemptLoop, h]
    | ok s => simp [attemptLoop, h]

/-- Claim C9: with `forceReindex = true`, `update_file_index` reaches the
regeneration branch for every store state — the generator is invoked, as
witnessed by a strict increase of the external-call count — even when an
entry exists whose stored digest matches the file's current digest. -/
theorem c9_force_always_invokes_generator (env : Env) (st : St)
    (file_path contents : String)
    (hfs : env.fs file_path = some contents) :
    st.genCalls < ((update_file_index env st file_path true).2).genCalls := by
  have hstep : st.genCalls <
      (attemptLoop env (mkPrompt contents) MAX_INDEX_RETRIES st.genCalls).2 :=
    attemptLoop_calls_lt env (mkPrompt contents) 2 st.genCalls
  simp only [update_file_index, get_file_hash, hfs, if_true]
  simp only [reindexFile, get_file_index_description, hfs,
    attempt_index_generation]
  cases hg : attemptLoop env (mkPrompt contents) MAX_INDEX_RETRIES
      st.genCalls with
  | mk r calls =>
    rw [hg] at hstep
    simp only at hstep
    cases r with
    | error e => simpa using hstep
    | ok s => simp only [log]; simpa using hstep

/-- Witness for `c9_force_always_invokes_generator`: forcing a reindex on
a state whose entry digest matches the file's current digest still makes
an external generation call. -/
theorem c9_witness :
    stHit.genCalls <
      ((update_file_index envA stHit "a.txt" true).2).genCalls :=
  c9_force_always_invokes_generator envA stHit "a.txt" "content" (by decide)

/-- Replacing `verbose` leaves every non-logging collaborator in place. -/
theorem setVerbose_oracle (env : Env) (b : Bool) :
    (setVerbose env b).oracle = env.oracle := rfl

/-- `update_file_index` is entirely independent of the `verbose` flag:
its only `log` call passes two positional arguments, so it raises the
same `TypeError` whatever `verbose` is, before any printing or writing. -/
theorem update_file_index_setVerbose (env : Env) (b : Bool) (st : St)
    (p : String) (force : Bool) :
    update_file_index (setVerbose env b) st p force =
      update_file_index env st p force := rfl

/-- `opView` congruence for the regeneration tail: states agreeing on
document and call count yield the same view. -/
theorem reindexFile_view_congr (env : Env) (st1 st2 : St) (ij : Doc)
    (p fh : String) (hdoc : st1.doc = st2.doc)
    (hg : st1.genCalls = st2.genCalls) :
    opView (reindexFile env st1 ij p fh) =
      opView (reindexFile env st2 ij p fh) := by
  simp only [reindexFile, hg]
  cases hgd : get_file_index_description env p st2.genCalls with
  | mk r calls =>
    cases r with
    | error e => simp [opView, hdoc]
    | ok s => simp [log, opView, hdoc]

/-- `opView` congruence for `update_file_index`: the returned value, the
persisted document and the call count do not depend on the prior log. -/
theorem update_view_congr (env : Env) (st1 st2 : St) (p : String)
    (force : Bool) (hdoc : st1.doc = st2.doc)
    (hg : st1.genCalls = st2.genCalls) :
    opView (update_file_index env st1 p force) =
      opView (update_file_index env st2 p force) := by
  simp only [update_file_index]
  cases hh : get_file_hash env p with
  | error e => simp [opView, hdoc, hg]
  | ok fh =>
    cases force with
    | true =>
        rw [hdoc]
        exact reindexFile_view_congr env st1 st2 st2.doc p fh hdoc hg
    | false =>
      rw [hdoc]
      cases hl : lookupDoc st2.doc p with
      | none => simp [opView, hdoc, hg]
      | some data =>
        cases hs : data.hash != fh with
        | true =>
            simp only [hs, if_true]
            exact reindexFile_view_congr env st1 st2 st2.doc p fh hdoc hg
        | false => simp [hs, opView, hdoc, hg]

/-- `opView` congruence for `generate_all_indexes` across two `verbose`
flags: the batch result, the persisted document and the call count agree
run for run; only the accumulated log may differ. -/
theorem generate_all_view_congr (env : Env) (b1 b2 force ignore : Bool) :
    ∀ (files : List String) (st1 st2 : St), st1.doc = st2.doc →
      st1.genCalls = st2.genCalls →
      opView (generate_all_indexes (setVerbose env b1) st1 files
          force ignore) =
        opView (generate_all_indexes (setVerbose env b2) st2 files
          force ignore) := by
  intro files
  induction files with
  | nil =>
    intro st1 st2 hdoc hg
    simp [generate_all_indexes, opView, hdoc, hg]
  | cons f rest ih =>
    intro st1 st2 hdoc hg
    have hu : opView (update_file_index env st1 f force) =
        opView (update_file_index env st2 f force) :=
      update_view_congr env st1 st2 f force hdoc hg
    simp only [generate_all_indexes, update_file_index_setVerbose]
    cases h1 : update_file_index env st1 f force with
    | mk r1 st1' =>
      cases h2 : update_file_index env st2 f force with
      | mk r2 st2' =>
        rw [h1, h2] at hu
        have hr : r1 = r2 := congrArg Prod.fst hu
        have hdoc' : st1'.doc = st2'.doc :=
          congrArg (fun x => x.2.1) hu
        have hg' : st1'.genCalls = st2'.genCalls :=
          congrArg (fun x => x.2.2) hu
        subst hr
        cases r1 with
        | ok u => exact ih st1' st2' hdoc' hg'
        | error e =>
          cases e with
          | indexGenerationFailure msg =>
            cases ignore with
            | true =>
                simp only [log, setVerbose]
                exact ih _ _ hdoc' hg'
            | false => simp [opView, hdoc', hg']
          | keyError k => simp [opView, hdoc', hg']
          | typeError m => simp [opView, hdoc', hg']
          | fileReadError q => simp [opView, hdoc', hg']

/-- Claim C10: two-run noninterference in the `verbose` constructor flag.
For every environment, state and input, the value returned, the persisted
document and the external-call count of `update_file_index` and of
`generate_all_indexes` coincide between a run with `verbose = b1` and a
run with `verbose = b2`; `get_sub_index` does not consult the flag at
all.  Only the printed log output may differ. -/
theorem c10_verbose_noninterference (env : Env) (st : St) (b1 b2 : Bool)
    (p : String) (force ignore : Bool) (files : List String) :
    opView (update_file_index (setVerbose env b1) st p force) =
        opView (update_file_index (setVerbose env b2) st p force) ∧
      opView (generate_all_indexes (setVerbose env b1) st files
          force ignore) =
        opView (generate_all_indexes (setVerbose env b2) st files
          force ignore) ∧
      get_sub_index st files = get_sub_index st files :=
  ⟨by rw [update_file_index_setVerbose, update_file_index_setVerbose],
   generate_all_view_congr env b1 b2 force ignore files st st rfl rfl,
   rfl⟩

end Mindflow
